import Mathlib

/-!
Verification development for the sysctl config library
(`lib/charms/operator_libs_linux/v0/sysctl.py`).

The source is shallowly embedded below: the filesystem (per-caller files
under `/etc/sysctl.d/90-juju-<name>` and the merged file
`95-juju-sysctl.conf`) is explicit state, the external `sysctl` binary is
an oracle supplying the textual output of each invocation, and the
Python-level dynamic behaviours that matter for the claims (str-vs-int
equality, `int()` conversion, `set.discard` of a mismatched type) are
modelled explicitly and faithfully.
-/

set_option autoImplicit false

namespace Sysctl

/-- A Python value as it occurs in the `value` field of the desired config:
the library's documented usage passes either strings or integers, and
`Config._parse_config` stores them verbatim (`result[key] = value["value"]`,
no conversion). -/
inductive PyVal where
  | str : String → PyVal
  | int : Int → PyVal
deriving DecidableEq, Repr

/-- Python f-string rendering of a value (`f"{key}={value}"`): a string
renders as itself, an integer as its decimal form. -/
def pyvalStr : PyVal → String
  | .str s => s
  | .int n => toString n

/-- Python `==` between a `str` (always the type of values in `_data`,
which come from parsing the merged file) and the verbatim desired value:
comparing a `str` with an `int` in Python is `False` regardless of
contents. -/
def pyEq (s : String) : PyVal → Bool
  | .str t => s == t
  | .int _ => false

/-- Lookup in an insertion-ordered dict (Python `dict` access). -/
def dlookup {α : Type} (k : String) : List (String × α) → Option α
  | [] => none
  | p :: rest => if p.1 = k then some p.2 else dlookup k rest

/-- Python `dict` assignment `d[k] = v`: an existing key keeps its
position and gets the new value, a new key is appended. -/
def dinsert {α : Type} (k : String) (v : α) : List (String × α) → List (String × α)
  | [] => [(k, v)]
  | p :: rest => if p.1 = k then (k, v) :: rest else p :: dinsert k v rest

/-- Characters removed by Python `str.strip()` (the ASCII whitespace
relevant here). -/
def isPyWs (c : Char) : Bool :=
  c = ' ' || c = '\t' || c = '\n' || c = '\r' || c = '\x0b' || c = '\x0c'

/-- Python `str.strip()`. -/
def pyStrip (s : String) : String :=
  ⟨((s.data.dropWhile isPyWs).reverse.dropWhile isPyWs).reverse⟩

/-- Auxiliary for `str.split(sep)`: splits a character list on a
separator character. -/
def splitCharsAux (sep : Char) : List Char → List Char → List (List Char)
  | [], acc => [acc.reverse]
  | c :: rest, acc =>
    if c = sep then acc.reverse :: splitCharsAux sep rest []
    else splitCharsAux sep rest (c :: acc)

/-- Python `s.split(sep)` for a one-character separator. -/
def pySplit (sep : Char) (s : String) : List String :=
  (splitCharsAux sep s.data []).map (fun cs => ⟨cs⟩)

/-- Python `s.startswith(pre)`. -/
def pyStartsWith (pre s : String) : Bool :=
  pre.data.isPrefixOf s.data

/-- `Config._parse_line`: comment lines (starting `#`) and blank lines
yield nothing; otherwise the line must split on `=` into exactly a
key part and a value part (`param, value = line.split("=")`), both
stripped.  Any other shape raises an uncaught `ValueError` in Python,
modelled as `Except.error`.  (File lines are modelled without their
trailing newline, so the blank line `"\n"` is modelled as `""`.) -/
def parse_line (line : String) : Except Unit (List (String × String)) :=
  if pyStartsWith "#" line || line == "" then .ok []
  else
    match pySplit '=' line with
    | [p, v] => .ok [(pyStrip p, pyStrip v)]
    | _ => .error ()

/-- The line-by-line fold of `Config._load_data`:
`config.update(self._parse_line(line))` for each line. -/
def load_lines : List String → List (String × String) → Except Unit (List (String × String))
  | [], cfg => .ok cfg
  | l :: rest, cfg =>
    match parse_line l with
    | .error e => .error e
    | .ok kvs => load_lines rest (kvs.foldl (fun c kv => dinsert kv.1 kv.2 c) cfg)

/-- `Config._load_data`: an absent merged file yields the empty config,
otherwise the merged file's lines are parsed in order. -/
def load_data : Option (List String) → Except Unit (List (String × String))
  | none => .ok []
  | some lines => load_lines lines []

/-- `CHARM_FILENAME_PREFIX = "90-juju-"`. -/
def charmFileStart : String := "90-juju-"

/-- `SYSCTL_DIRECTORY = Path("/etc/sysctl.d")`. -/
def sysctlDir : String := "/etc/sysctl.d"

/-- `Config.charm_filepath`: `SYSCTL_DIRECTORY / f"90-juju-{name}"`. -/
def charm_filepath (name : String) : String :=
  sysctlDir ++ "/" ++ charmFileStart ++ name

/-- `SYSCTL_HEADER` (for `LIBAPI = 0`, `LIBPATCH = 2`), as the list of
lines it contributes to the merged file. -/
def SYSCTL_HEADER : List String :=
  [ "# This config file was produced by sysctl lib v0.2"
  , "#"
  , "# This file represents the output of the sysctl lib, which can combine multiple"
  , "# configurations into a single file like."
  ]

/-- A Python runtime value that can be a member of the `paths` set in
`Config._merge`: `Path.glob` yields `Path` objects (`pathObj`), while
`charm_filepath.as_posix()` is a `str` (`strObj`).  In Python a `Path`
and a `str` are never `==`, which the two distinct constructors model. -/
inductive PyPath where
  | pathObj : String → PyPath
  | strObj : String → PyPath
deriving DecidableEq, BEq, Repr

/-- The filesystem state the library manipulates: the per-caller
`90-juju-<name>` files (name → lines) and the merged
`95-juju-sysctl.conf` (`none` when absent). -/
structure FS where
  charmFiles : List (String × List String)
  merged : Option (List String)
deriving DecidableEq, Repr

/-- The `paths` computation of `Config._merge`: glob all `90-juju-*`
files, then `paths.discard(self.charm_filepath.as_posix())`.  The set
holds `Path` objects while the discarded element is a `str`, so the
discard compares `pathObj` values against a `strObj` value; an entry is
kept when it is not equal (as a Python value) to the discarded one. -/
def mergePaths (fs : FS) (ownName : String) (add_own_charm : Bool) : List (String × List String) :=
  fs.charmFiles.filter (fun e =>
    add_own_charm || !(PyPath.pathObj (charm_filepath e.1) == PyPath.strObj (charm_filepath ownName)))

/-- The content `Config._merge` writes to the merged file: the header
followed by the raw lines of every globbed (and not discarded) per-caller
file. -/
def mergedContent (fs : FS) (ownName : String) (add_own_charm : Bool) : List String :=
  SYSCTL_HEADER ++ ((mergePaths fs ownName add_own_charm).map (fun e => e.2)).flatten

/-- Errors surfaced by an operation.  `validation`, `permission` and
`sysctlErr` are the library's `ValidationError`, `SysctlPermissionError`
and `SysctlError`; `uncaught` models a Python exception the library does
not define or handle (`ValueError`/`IndexError`). -/
inductive Err where
  | validation : List String → Err
  | permission : List String → Err
  | sysctlErr : String → Err
  | uncaught : String → Err
deriving DecidableEq, Repr

/-- The state of one `Config` instance: its caller name, the filesystem,
and `_data` (last loaded merged mapping). -/
structure State where
  name : String
  fs : FS
  data : List (String × String)
deriving DecidableEq, Repr

/-- `Config._merge(add_own_charm)` followed by the reload
`self._data = self._load_data()`: the merged file is (re)written first;
if reparsing it fails, the `ValueError` escapes with `_data` unchanged
(the assignment never happens). -/
def mergeStep (st : State) (add_own_charm : Bool) : Option Err × State :=
  let content := mergedContent st.fs st.name add_own_charm
  let fs' : FS := ⟨st.fs.charmFiles, some content⟩
  match load_data (some content) with
  | .ok d => (none, ⟨st.name, fs', d⟩)
  | .error _ => (some (.uncaught "ValueError"), ⟨st.name, fs', st.data⟩)

/-- `Config._validate`: collect the keys present in both `_data` and
`_desired_config` whose values differ under Python `==`.  (The source
iterates a Python set intersection, whose order is unspecified; the
model fixes the desired-config insertion order as one admissible
enumeration.) -/
def validate (data : List (String × String)) : List (String × PyVal) → List String
  | [] => []
  | (k, v) :: rest =>
    match dlookup k data with
    | some w => if pyEq w v then validate data rest else k :: validate data rest
    | none => validate data rest

/-- `Config._parse_config`: build `_desired_config` by inserting each
`key ↦ record["value"]` into a fresh dict, with the value verbatim. -/
def parse_config (config : List (String × PyVal)) : List (String × PyVal) :=
  config.foldl (fun acc kv => dinsert kv.1 kv.2 acc) []

/-- Decimal digit value of a character. -/
def digitVal (c : Char) : Nat := c.toNat - 48

/-- The digit groups of a Python integer literal body: splitting on `_`
must give nonempty all-digit groups (`int("1_0")` is accepted,
`int("1__0")`, `int("_1")`, `int("1_")` are not). -/
def intGroupsOk (cs : List Char) : Bool :=
  (splitCharsAux '_' cs []).all (fun g => !g.isEmpty && g.all Char.isDigit)

/-- Numeric value of a digits-and-underscores body. -/
def intBodyVal (cs : List Char) : Nat :=
  cs.foldl (fun n c => if c = '_' then n else n * 10 + digitVal c) 0

/-- Python `int(s)` on the unsigned body after the optional sign. -/
def pyIntCore (cs : List Char) : Option Nat :=
  if intGroupsOk cs then some (intBodyVal cs) else none

/-- Python `int(s)`: strip surrounding whitespace, allow one optional
sign, then a nonempty decimal body (underscores permitted between
digits); anything else raises `ValueError`, modelled as `none`. -/
def pyInt (s : String) : Option Int :=
  match ((s.data.dropWhile isPyWs).reverse.dropWhile isPyWs).reverse with
  | '-' :: rest => (pyIntCore rest).map (fun n => -(n : Int))
  | '+' :: rest => (pyIntCore rest).map (fun n => (n : Int))
  | rest => (pyIntCore rest).map (fun n => (n : Int))

/-- The fixed text around the key in the permission-denied pattern of
`Config._apply`. -/
def deniedPre : List Char := "sysctl: permission denied on key \"".data

/-- The fixed trailing text of the permission-denied pattern. -/
def deniedSuf : List Char := "\", ignoring".data

/-- The character class `[a-z_\.]` of the permission-denied regex:
lowercase letters, underscore and dot — note: no digits. -/
def keyClassChar (c : Char) : Bool :=
  ('a' ≤ c && c ≤ 'z') || c = '_' || c = '.'

/-- One application of the anchored regex
`^sysctl: permission denied on key \"([a-z_\.]+)\", ignoring$` to a
line (`re.match`): the line must be exactly the fixed prefix, then a
nonempty run of class characters (the captured group), then the fixed
suffix. -/
def matchDenied (line : String) : Option String :=
  let cs := line.data
  if deniedPre.isPrefixOf cs then
    let rest := cs.drop deniedPre.length
    if deniedSuf.reverse.isPrefixOf rest.reverse then
      let mid := rest.take (rest.length - deniedSuf.length)
      if !mid.isEmpty && mid.all keyClassChar then some ⟨mid⟩ else none
    else none
  else none

/-- The captured keys of all lines of the apply output matching the
permission-denied regex (`failed_values` with `group(1)` applied). -/
def deniedKeys (lines : List String) : List String :=
  lines.filterMap matchDenied

/-- The external `sysctl` utility, as the library observes it in one
`update` call: the output (or non-zero-exit captured output, as
`Except.error`) of the per-key query `sysctl <key> -n`, of the single
combined apply invocation, and of the single restore invocation. -/
structure Oracle where
  queryOut : String → Except String (List String)
  applyRes : Except String (List String)
  restoreRes : Except String (List String)

/-- `Config._create_snapshot`:
`{key: int(self._sysctl([key, "-n"])[0]) for key in self._desired_config.keys()}`.
A non-zero exit of the query raises `SysctlError` from `_sysctl`; an
empty output raises `IndexError` at `[0]`; an unconvertible first line
raises `ValueError` at `int(...)`.  Returns the snapshot (or the raised
error) together with the `_sysctl` invocations made. -/
def createSnapshot (o : Oracle) : List (String × PyVal) → Except Err (List (String × Int)) × List (List String)
  | [] => (.ok [], [])
  | (k, _) :: rest =>
    match o.queryOut k with
    | .error out => (.error (.sysctlErr out), [[k, "-n"]])
    | .ok [] => (.error (.uncaught "IndexError"), [[k, "-n"]])
    | .ok (l :: _) =>
      match pyInt l with
      | none => (.error (.uncaught "ValueError"), [[k, "-n"]])
      | some n =>
        match createSnapshot o rest with
        | (.ok s, calls) => (.ok ((k, n) :: s), [k, "-n"] :: calls)
        | (.error e, calls) => (.error e, [k, "-n"] :: calls)

/-- The argument list of the apply invocation in `Config._apply`:
`[f"{key}={value}" for key, value in self._desired_config.items()]`. -/
def applyCmd (desired : List (String × PyVal)) : List String :=
  desired.map (fun kv => kv.1 ++ "=" ++ pyvalStr kv.2)

/-- The argument list of the restore invocation in
`Config._restore_snapshot`: `[f"{key}={value}" for key, value in snapshot.items()]`. -/
def restoreCmd (snap : List (String × Int)) : List String :=
  snap.map (fun kv => kv.1 ++ "=" ++ toString kv.2)

/-- The lines `Config._create_charm_file` writes to the caller's own
file: `f"{key}={value}\n"` per desired entry, in mapping order. -/
def charmLines (desired : List (String × PyVal)) : List String :=
  desired.map (fun kv => kv.1 ++ "=" ++ pyvalStr kv.2)

deriving instance DecidableEq for Except

/-- The result of one `update` call: its outcome, the final state, and
the `_sysctl` invocations made (each as the argument list after the
`"sysctl"` executable name). -/
structure UpdateResult where
  res : Except Err Unit
  st : State
  trace : List (List String)
deriving DecidableEq, Repr

/-- The conditional pre-validation re-merge of `Config.update`:
`if self.charm_filepath.exists(): self._merge(add_own_charm=False)`. -/
def preMerge (st : State) : Option Err × State :=
  if (dlookup st.name st.fs.charmFiles).isSome then mergeStep st false
  else (none, st)

/-- `Config.update`, in source order: parse the desired config; if the
caller's own file exists, re-merge with `add_own_charm=False`; validate
and raise `ValidationError` on conflicts; snapshot the live values;
apply (a non-zero exit raises `SysctlError` from `_sysctl`; otherwise
lines matching the permission-denied regex raise
`SysctlPermissionError`, after restoring the snapshot with one combined
invocation — a failing restore raises its own `SysctlError` instead);
on success write the caller's own file and re-merge everything. -/
def update (o : Oracle) (st : State) (config : List (String × PyVal)) : UpdateResult :=
  let desired := parse_config config
  match preMerge st with
  | (some e, st1) => ⟨.error e, st1, []⟩
  | (none, st1) =>
    match validate st1.data desired with
    | k :: ks => ⟨.error (.validation (k :: ks)), st1, []⟩
    | [] =>
      match createSnapshot o desired with
      | (.error e, calls) => ⟨.error e, st1, calls⟩
      | (.ok snap, calls) =>
        match o.applyRes with
        | .error out => ⟨.error (.sysctlErr out), st1, calls ++ [applyCmd desired]⟩
        | .ok lines =>
          match deniedKeys lines with
          | dk :: dks =>
            match o.restoreRes with
            | .error out =>
              ⟨.error (.sysctlErr out), st1, calls ++ [applyCmd desired, restoreCmd snap]⟩
            | .ok _ =>
              ⟨.error (.permission (dk :: dks)), st1,
                calls ++ [applyCmd desired, restoreCmd snap]⟩
          | [] =>
            let st2 : State :=
              ⟨st1.name, ⟨dinsert st1.name (charmLines desired) st1.fs.charmFiles, st1.fs.merged⟩,
                st1.data⟩
            match mergeStep st2 true with
            | (some e, st3) => ⟨.error e, st3, calls ++ [applyCmd desired]⟩
            | (none, st3) => ⟨.ok (), st3, calls ++ [applyCmd desired]⟩

/-- `Config.remove`: unlink the caller's own file (`missing_ok=True`)
and regenerate the merged file. -/
def remove (st : State) : Option Err × State :=
  mergeStep ⟨st.name, ⟨st.fs.charmFiles.filter (fun e => !(e.1 == st.name)), st.fs.merged⟩, st.data⟩ true

/-! ### Concrete scenarios used by the claim theorems and witnesses -/

/-- An oracle for runs where the utility succeeds: every query returns `0`,
the apply and restore invocations exit zero with no output. -/
def okOracle : Oracle := ⟨fun _ => .ok ["0"], .ok [], .ok []⟩

/-- Filesystem in which caller `app1` has already persisted
`vm.swappiness=1`, with the merged file at rest. -/
def fsOwn : FS := ⟨[("app1", ["vm.swappiness=1"])], some (SYSCTL_HEADER ++ ["vm.swappiness=1"])⟩

/-- Caller `app1`'s instance over `fsOwn` (its own per-caller file exists). -/
def stOwn : State := ⟨"app1", fsOwn, [("vm.swappiness", "1")]⟩

/-- A second caller `app2`'s instance over `fsOwn` (no own file). -/
def stOther : State := ⟨"app2", fsOwn, [("vm.swappiness", "1")]⟩

/-- A fresh caller `app1` instance over an empty directory. -/
def stFresh : State := ⟨"app1", ⟨[], none⟩, []⟩

/-- The permission-denied output line for `vm.swappiness`. -/
def denyLine : String := "sysctl: permission denied on key \"vm.swappiness\", ignoring"

/-- Oracle: queries return `60`, the apply exits zero but its output
contains the permission-denied line for `vm.swappiness`. -/
def denyOracle : Oracle := ⟨fun _ => .ok ["60"], .ok [denyLine], .ok []⟩

/-- Oracle: queries return `60`, the apply exits non-zero with the
permission-denied line as its captured output. -/
def denyExitOracle : Oracle := ⟨fun _ => .ok ["60"], .error denyLine, .ok []⟩

/-- The permission-denied output line for the digit-containing key
`net.ipv4.tcp_max_syn_backlog`. -/
def digitDenyLine : String :=
  "sysctl: permission denied on key \"net.ipv4.tcp_max_syn_backlog\", ignoring"

/-- Oracle: queries return `128`, the apply exits zero with the
digit-key permission-denied line in its output. -/
def digitDenyOracle : Oracle := ⟨fun _ => .ok ["128"], .ok [digitDenyLine], .ok []⟩

/-- Oracle whose single-key query returns two lines. -/
def twoLineOracle : Oracle := ⟨fun _ => .ok ["5", "6"], .ok [], .ok []⟩

/-- Oracle whose single-key query returns a non-numeric line. -/
def badLineOracle : Oracle := ⟨fun _ => .ok ["hello"], .ok [], .ok []⟩

/-! ### Helper lemmas about the merge machinery -/

theorem pathObj_beq_strObj (a b : String) : (PyPath.pathObj a == PyPath.strObj b) = false := rfl

theorem mergePaths_eq (fs : FS) (n : String) (b : Bool) : mergePaths fs n b = fs.charmFiles := by
  unfold mergePaths
  have hc : (fun (e : String × List String) =>
      b || !(PyPath.pathObj (charm_filepath e.1) == PyPath.strObj (charm_filepath n)))
      = fun _ => true := by
    funext e
    rw [pathObj_beq_strObj]
    simp
  rw [hc]
  simp

theorem mergeStep_snd_fs (st : State) (b : Bool) :
    ((mergeStep st b).2).fs = ⟨st.fs.charmFiles, some (mergedContent st.fs st.name b)⟩ := by
  simp only [mergeStep]
  split <;> rfl

theorem mergeStep_snd_name (st : State) (b : Bool) : ((mergeStep st b).2).name = st.name := by
  simp only [mergeStep]
  split <;> rfl

theorem mergedContent_eq (fs : FS) (n : String) (b : Bool) :
    mergedContent fs n b = SYSCTL_HEADER ++ (fs.charmFiles.map (fun e => e.2)).flatten := by
  unfold mergedContent
  rw [mergePaths_eq]

theorem preMerge_of_absent (st : State) (hown : dlookup st.name st.fs.charmFiles = none) :
    preMerge st = (none, st) := by
  unfold preMerge
  rw [hown]
  rfl

theorem remove_merged (st : State) :
    (remove st).2.fs.merged
      = some (SYSCTL_HEADER ++ (((remove st).2.fs.charmFiles).map (fun e => e.2)).flatten) := by
  unfold remove
  rw [mergeStep_snd_fs, mergedContent_eq]

theorem update_ok_merged (o : Oracle) (st : State) (cfg : List (String × PyVal))
    (r : UpdateResult) (hu : update o st cfg = r) (h : r.res = .ok ()) :
    r.st.fs.merged = some (SYSCTL_HEADER ++ ((r.st.fs.charmFiles).map (fun e => e.2)).flatten) := by
  unfold update at hu
  dsimp only at hu
  repeat' split at hu
  any_goals (rw [← hu] at h; simp at h; done)
  rename_i st3 heq
  rw [← hu]
  have h2 := congrArg Prod.snd heq
  dsimp at h2
  rw [← h2, mergeStep_snd_fs, mergedContent_eq]

/-! ### Helper lemmas about the merged-file format (parsing/round-trip) -/

theorem strMk_data (s : String) : (⟨s.data⟩ : String) = s := rfl

theorem strData_append (s t : String) : (s ++ t).data = s.data ++ t.data := rfl

theorem strData_kv (k v : String) : (k ++ "=" ++ v).data = k.data ++ '=' :: v.data := by
  rw [strData_append, strData_append]
  show (k.data ++ ['=']) ++ v.data = _
  simp

theorem splitCharsAux_no_sep (sep : Char) (xs : List Char) :
    ∀ acc, sep ∉ xs → splitCharsAux sep xs acc = [acc.reverse ++ xs] := by
  induction xs with
  | nil => intro acc _; simp [splitCharsAux]
  | cons c rest ih =>
    intro acc h
    have hc : ¬ c = sep := fun hc => h (hc ▸ List.mem_cons_self c rest)
    simp only [splitCharsAux, if_neg hc]
    rw [ih (c :: acc) (fun hm => h (List.mem_cons_of_mem c hm))]
    simp

theorem splitCharsAux_split (sep : Char) (xs ys : List Char) :
    ∀ acc, sep ∉ xs →
    splitCharsAux sep (xs ++ sep :: ys) acc = (acc.reverse ++ xs) :: splitCharsAux sep ys [] := by
  induction xs with
  | nil => intro acc _; simp [splitCharsAux]
  | cons c rest ih =>
    intro acc h
    have hc : ¬ c = sep := fun hc => h (hc ▸ List.mem_cons_self c rest)
    simp only [List.cons_append, splitCharsAux, if_neg hc]
    show splitCharsAux sep (rest ++ sep :: ys) (c :: acc) = _
    rw [ih (c :: acc) (fun hm => h (List.mem_cons_of_mem c hm))]
    simp

theorem pySplit_kv (k v : String) (hk : '=' ∉ k.data) (hv : '=' ∉ v.data) :
    pySplit '=' (k ++ "=" ++ v) = [k, v] := by
  unfold pySplit
  rw [strData_kv, splitCharsAux_split '=' k.data v.data [] hk,
    splitCharsAux_no_sep '=' v.data [] hv]
  simp [strMk_data]

theorem pyStartsWith_hash_false (k v : String) (hh : k.data.head? ≠ some '#') :
    pyStartsWith "#" (k ++ "=" ++ v) = false := by
  unfold pyStartsWith
  rw [strData_kv]
  cases hk : k.data with
  | nil => rfl
  | cons c cs =>
    have hc : ('#' == c) = false := by
      rw [beq_eq_false_iff_ne]
      intro he
      exact hh (by rw [hk, ← he]; rfl)
    show (('#' == c) && _) = false
    rw [hc]
    rfl

theorem append_ne_empty_beq (k v : String) : ((k ++ "=" ++ v) == "") = false := by
  rw [beq_eq_false_iff_ne]
  intro he
  have h2 := congrArg String.data he
  rw [strData_kv] at h2
  simp at h2

theorem parse_line_kv (k v : String) (hk : '=' ∉ k.data) (hv : '=' ∉ v.data)
    (hh : k.data.head? ≠ some '#') :
    parse_line (k ++ "=" ++ v) = .ok [(pyStrip k, pyStrip v)] := by
  unfold parse_line
  rw [pyStartsWith_hash_false k v hh, append_ne_empty_beq k v]
  simp only [Bool.or_self, Bool.false_eq_true, if_false]
  rw [pySplit_kv k v hk hv]

theorem dinsert_append {α : Type} (k : String) (v : α) (d : List (String × α))
    (h : ∀ p ∈ d, p.1 ≠ k) : dinsert k v d = d ++ [(k, v)] := by
  induction d with
  | nil => rfl
  | cons p rest ih =>
    have hp : ¬ p.1 = k := h p (List.mem_cons_self p rest)
    simp only [dinsert, if_neg hp, List.cons_append]
    rw [ih (fun q hq => h q (List.mem_cons_of_mem p hq))]

theorem load_lines_header (rest : List String) (acc : List (String × String)) :
    load_lines (SYSCTL_HEADER ++ rest) acc = load_lines rest acc := rfl

theorem load_lines_map (m : List (String × String)) :
    ∀ acc : List (String × String),
      (∀ p ∈ m, parse_line (p.1 ++ "=" ++ p.2) = .ok [(pyStrip p.1, pyStrip p.2)]) →
      ((m.map (fun p => pyStrip p.1)).Nodup) →
      (∀ q ∈ acc, ∀ p ∈ m, q.1 ≠ pyStrip p.1) →
      load_lines (m.map (fun p => p.1 ++ "=" ++ p.2)) acc
        = .ok (acc ++ m.map (fun p => (pyStrip p.1, pyStrip p.2))) := by
  induction m with
  | nil => intro acc _ _ _; simp [load_lines]
  | cons p m ih =>
    intro acc hpl hnd hdisj
    rw [List.map_cons]
    simp only [load_lines, hpl p (List.mem_cons_self p m)]
    rw [List.foldl_cons, List.foldl_nil,
      dinsert_append _ _ acc (fun q hq => hdisj q hq p (List.mem_cons_self p m))]
    rw [List.map_cons, List.nodup_cons] at hnd
    dsimp only
    rw [ih (acc ++ [(pyStrip p.1, pyStrip p.2)])
      (fun q hq => hpl q (List.mem_cons_of_mem p hq)) hnd.2 ?_]
    · simp
    · intro q hq p' hp'
      rcases List.mem_append.mp hq with hqa | hqx
      · exact hdisj q hqa p' (List.mem_cons_of_mem p hp')
      · have hq2 : q = (pyStrip p.1, pyStrip p.2) := by simpa using hqx
        rw [hq2]
        dsimp only
        intro hcontra
        apply hnd.1
        rw [hcontra]
        exact List.mem_map_of_mem (fun r => pyStrip r.1) hp'

/-! ### Claim theorems -/

/-- Claim C1.  The claim states that the pre-validation re-merge loads
`_data` from all per-caller files EXCLUDING the caller's own file.  The
code does not: `paths` is a set of `Path` objects and
`paths.discard(self.charm_filepath.as_posix())` discards a `str`, which
equals no `Path`, so the discard is a no-op — proved here in general
(`mergePaths fs n false = fs.charmFiles`), and concretely the re-merge
keeps the caller's own persisted `vm.swappiness=1` in `_data`, so that a
re-entrant update to value `2` fails with a false self-conflict. -/
theorem claim1_premerge_includes_own_file :
    (∀ fs n, mergePaths fs n false = fs.charmFiles)
    ∧ (mergeStep stOwn false).2.data = [("vm.swappiness", "1")]
    ∧ (update okOracle stOwn [("vm.swappiness", PyVal.str "2")]).res
        = .error (.validation ["vm.swappiness"]) :=
  ⟨fun fs n => mergePaths_eq fs n false, by decide, by decide⟩

/-- Claim C2.  When the caller has no pre-existing own file, validation
passes, the snapshot succeeds, the apply invocation exits zero with at
least one permission-denied line in its output, and the restore
invocation succeeds, then `update` raises a permission error naming
exactly the captured keys, the state (both per-caller files and the
merged file) is unchanged, and the trace ends with the single apply
invocation followed by ONE combined restore invocation carrying every
snapshot key. -/
theorem claim2_permission_rollback (o : Oracle) (st : State) (cfg : List (String × PyVal))
    (snap : List (String × Int)) (calls : List (List String)) (lines rl : List String)
    (dk : String) (dks : List String)
    (hown : dlookup st.name st.fs.charmFiles = none)
    (hv : validate st.data (parse_config cfg) = [])
    (hsnap : createSnapshot o (parse_config cfg) = (.ok snap, calls))
    (happ : o.applyRes = .ok lines)
    (hden : deniedKeys lines = dk :: dks)
    (hres : o.restoreRes = .ok rl) :
    update o st cfg =
      ⟨.error (.permission (dk :: dks)), st,
        calls ++ [applyCmd (parse_config cfg), restoreCmd snap]⟩ := by
  unfold update
  rw [preMerge_of_absent st hown]
  dsimp only
  rw [hv]
  dsimp only
  rw [hsnap]
  dsimp only
  rw [happ]
  dsimp only
  rw [hden]
  dsimp only
  rw [hres]

/-- Witness for C2: the spec's own scenario — the apply output contains
the denied line for `vm.swappiness`; the snapshot value `60` is restored
via one combined invocation `vm.swappiness=60`, a permission error names
`["vm.swappiness"]`, and no file is created. -/
theorem claim2_witness :
    dlookup stFresh.name stFresh.fs.charmFiles = none
    ∧ validate stFresh.data (parse_config [("vm.swappiness", PyVal.int 1)]) = []
    ∧ createSnapshot denyOracle (parse_config [("vm.swappiness", PyVal.int 1)])
        = (.ok [("vm.swappiness", 60)], [["vm.swappiness", "-n"]])
    ∧ denyOracle.applyRes = .ok [denyLine]
    ∧ deniedKeys [denyLine] = ["vm.swappiness"]
    ∧ denyOracle.restoreRes = .ok []
    ∧ update denyOracle stFresh [("vm.swappiness", PyVal.int 1)]
        = ⟨.error (.permission ["vm.swappiness"]), stFresh,
            [["vm.swappiness", "-n"], ["vm.swappiness=1"], ["vm.swappiness=60"]]⟩ :=
  ⟨by decide, by decide, by decide, by decide, by decide, by decide,
    (claim2_permission_rollback denyOracle stFresh [("vm.swappiness", PyVal.int 1)]
      [("vm.swappiness", 60)] [["vm.swappiness", "-n"]] [denyLine] [] "vm.swappiness" []
      (by decide) (by decide) (by decide) (by decide) (by decide) (by decide)).trans
      (by decide)⟩

/-- Claim C3.  If the pre-merge step leaves state `st1` without raising
and validation finds a conflicting key, `update` raises a
`ValidationError` naming exactly the conflicting keys, makes no utility
invocation at all (empty trace, hence no live apply), and writes nothing
after validation: the final state is `st1` and the per-caller files are
those of the initial state. -/
theorem claim3_validation_conflict_no_side_effects (o : Oracle) (st st1 : State)
    (cfg : List (String × PyVal)) (k : String) (ks : List String)
    (hpm : preMerge st = (none, st1))
    (hv : validate st1.data (parse_config cfg) = k :: ks) :
    update o st cfg = ⟨.error (.validation (k :: ks)), st1, []⟩
      ∧ st1.fs.charmFiles = st.fs.charmFiles := by
  constructor
  · unfold update
    rw [hpm]
    dsimp only
    rw [hv]
  · unfold preMerge at hpm
    by_cases hc : (dlookup st.name st.fs.charmFiles).isSome
    · rw [if_pos hc] at hpm
      have h2 := congrArg Prod.snd hpm
      dsimp at h2
      rw [← h2, mergeStep_snd_fs]
    · rw [if_neg hc] at hpm
      have h2 := congrArg Prod.snd hpm
      dsimp at h2
      rw [← h2]

/-- Witness for C3: a second caller `app2` with no own file requests an
already-merged key with a different value; its `update` fails with the
conflict and leaves the state — in particular the merged file —
unchanged. -/
theorem claim3_witness :
    preMerge stOther = (none, stOther)
    ∧ validate stOther.data (parse_config [("vm.swappiness", PyVal.str "2")]) = ["vm.swappiness"]
    ∧ (update okOracle stOther [("vm.swappiness", PyVal.str "2")]
        = ⟨.error (.validation ["vm.swappiness"]), stOther, []⟩
      ∧ stOther.fs.charmFiles = stOther.fs.charmFiles) :=
  ⟨by decide, by decide,
    claim3_validation_conflict_no_side_effects okOracle stOther stOther
      [("vm.swappiness", PyVal.str "2")] "vm.swappiness" [] (by decide) (by decide)⟩

/-- Counterexample for C4.  The claim states that a non-zero-exit apply
whose captured output contains a permission-denied line is classified as
a partial-permission failure with snapshot restore.  In the code,
`_sysctl` wraps EVERY non-zero exit in a generic `SysctlError` before
`_apply` ever scans the output: here the apply exits non-zero with
exactly the denied line as captured output, yet `update` raises the
generic error and the trace shows no restore invocation. -/
theorem claim4_counterexample :
    (update denyExitOracle stFresh [("vm.swappiness", PyVal.int 1)]).res
      = .error (.sysctlErr denyLine)
    ∧ (update denyExitOracle stFresh [("vm.swappiness", PyVal.int 1)]).trace
      = [["vm.swappiness", "-n"], ["vm.swappiness=1"]] := by
  constructor <;> decide

/-- Claim C4 as amended.  Every apply invocation that exits with non-zero
status is wrapped in a generic execution error carrying the captured
output — REGARDLESS of that output's content (the output `out` is
arbitrary here, and the witness instantiates it with a permission-denied
line); no restore invocation is made and no file is written.  The
partial-permission classification only happens on a zero-exit apply
(claim C2's theorem). -/
theorem claim4_nonzero_exit_generic_error (o : Oracle) (st st1 : State)
    (cfg : List (String × PyVal)) (snap : List (String × Int)) (calls : List (List String))
    (out : String)
    (hpm : preMerge st = (none, st1))
    (hv : validate st1.data (parse_config cfg) = [])
    (hsnap : createSnapshot o (parse_config cfg) = (.ok snap, calls))
    (happ : o.applyRes = .error out) :
    update o st cfg = ⟨.error (.sysctlErr out), st1, calls ++ [applyCmd (parse_config cfg)]⟩ := by
  unfold update
  rw [hpm]
  dsimp only
  rw [hv]
  dsimp only
  rw [hsnap]
  dsimp only
  rw [happ]

/-- Witness for the amended C4, at the counterexample's own input: the
captured output is precisely a permission-denied line, and the result is
still the generic execution error with no restore in the trace. -/
theorem claim4_witness :
    preMerge stFresh = (none, stFresh)
    ∧ validate stFresh.data (parse_config [("vm.swappiness", PyVal.int 1)]) = []
    ∧ createSnapshot denyExitOracle (parse_config [("vm.swappiness", PyVal.int 1)])
        = (.ok [("vm.swappiness", 60)], [["vm.swappiness", "-n"]])
    ∧ denyExitOracle.applyRes = .error denyLine
    ∧ update denyExitOracle stFresh [("vm.swappiness", PyVal.int 1)]
        = ⟨.error (.sysctlErr denyLine), stFresh,
            [["vm.swappiness", "-n"], ["vm.swappiness=1"]]⟩ :=
  ⟨by decide, by decide, by decide, by decide,
    (claim4_nonzero_exit_generic_error denyExitOracle stFresh stFresh
      [("vm.swappiness", PyVal.int 1)] [("vm.swappiness", 60)] [["vm.swappiness", "-n"]]
      denyLine (by decide) (by decide) (by decide) (by decide)).trans (by decide)⟩

/-- Claim C5.  The claim states values are stringified during
normalization so that two callers giving the same value as a string and
as an integer do not conflict.  `_parse_config` stores the value
verbatim (first conjunct), and since `_validate` compares the merged
string `"1"` against the integer `1` with Python `==` (always false
across types), the second caller's update fails with a false conflict
(second conjunct) although the same request with the string `"1"`
succeeds (third conjunct). -/
theorem claim5_values_not_stringified :
    parse_config [("vm.swappiness", PyVal.int 1)] = [("vm.swappiness", PyVal.int 1)]
    ∧ (update okOracle stOther [("vm.swappiness", PyVal.int 1)]).res
        = .error (.validation ["vm.swappiness"])
    ∧ (update okOracle stOther [("vm.swappiness", PyVal.str "1")]).res = .ok () := by
  refine ⟨rfl, by decide, by decide⟩

/-- Claim C6.  The claim states `update` is idempotent for an identical
desired mapping.  With the documented integer-valued usage it is not:
the first `update` of `vm.swappiness` to integer `1` succeeds and
persists the line `vm.swappiness=1`; the second identical call re-merges
(keeping the own file, claim C1's bug), loads `_data` value `"1"` as a
string, compares it against the verbatim integer `1`, and fails with a
`ValidationError` instead of succeeding. -/
theorem claim6_idempotence_fails_for_int_values :
    (update okOracle stFresh [("vm.swappiness", PyVal.int 1)]).res = .ok ()
    ∧ (update okOracle (update okOracle stFresh [("vm.swappiness", PyVal.int 1)]).st
        [("vm.swappiness", PyVal.int 1)]).res = .error (.validation ["vm.swappiness"]) := by
  constructor <;> decide

/-- Claim C7.  At rest after a completed operation the merged file equals
the fixed header followed by the concatenated line contents of all
currently-existing per-caller files (in the model's enumeration order,
one admissible set order): after every successful `update`, and after
every `remove`. -/
theorem claim7_merged_file_at_rest (o : Oracle) (st : State) (cfg : List (String × PyVal))
    (h : (update o st cfg).res = .ok ()) :
    (update o st cfg).st.fs.merged
      = some (SYSCTL_HEADER ++ (((update o st cfg).st.fs.charmFiles).map (fun e => e.2)).flatten)
    ∧ ∀ st2 : State, (remove st2).2.fs.merged
      = some (SYSCTL_HEADER ++ (((remove st2).2.fs.charmFiles).map (fun e => e.2)).flatten) :=
  ⟨update_ok_merged o st cfg (update o st cfg) rfl h, fun st2 => remove_merged st2⟩

/-- Witness for C7 at a concrete successful update. -/
theorem claim7_witness :
    (update okOracle stFresh [("vm.swappiness", PyVal.int 1)]).res = .ok ()
    ∧ ((update okOracle stFresh [("vm.swappiness", PyVal.int 1)]).st.fs.merged
        = some (SYSCTL_HEADER
            ++ (((update okOracle stFresh [("vm.swappiness", PyVal.int 1)]).st.fs.charmFiles).map
                (fun e => e.2)).flatten)
      ∧ ∀ st2 : State, (remove st2).2.fs.merged
        = some (SYSCTL_HEADER ++ (((remove st2).2.fs.charmFiles).map (fun e => e.2)).flatten)) :=
  ⟨by decide,
    claim7_merged_file_at_rest okOracle stFresh [("vm.swappiness", PyVal.int 1)] (by decide)⟩

/-- Claim C8.  Round-trip: for any key→value-string mapping whose keys
and values are free of `=`, whose keys do not begin with `#`, and whose
stripped keys are pairwise distinct, the content the merge step produces
from the written per-caller file is the header plus the written
`key=value` lines, and parsing it back (skipping header/blank lines,
splitting on `=`, stripping) recovers exactly the written mapping modulo
surrounding whitespace. -/
theorem claim8_roundtrip (c : String) (mrg : Option (List String)) (m : List (String × String))
    (hk : ∀ p ∈ m, '=' ∉ p.1.data ∧ '=' ∉ p.2.data ∧ p.1.data.head? ≠ some '#')
    (hnd : (m.map (fun p => pyStrip p.1)).Nodup) :
    mergedContent ⟨[(c, m.map (fun p => p.1 ++ "=" ++ p.2))], mrg⟩ c true
        = SYSCTL_HEADER ++ m.map (fun p => p.1 ++ "=" ++ p.2)
    ∧ load_data (some (SYSCTL_HEADER ++ m.map (fun p => p.1 ++ "=" ++ p.2)))
        = .ok (m.map (fun p => (pyStrip p.1, pyStrip p.2))) := by
  constructor
  · rw [mergedContent_eq]
    simp
  · show load_lines (SYSCTL_HEADER ++ _) [] = _
    rw [load_lines_header]
    have h2 := load_lines_map m []
      (fun p hp => parse_line_kv p.1 p.2 (hk p hp).1 (hk p hp).2.1 (hk p hp).2.2) hnd
      (fun q hq => absurd hq (List.not_mem_nil q))
    simpa using h2

/-- Witness for C8 on a two-key mapping. -/
theorem claim8_witness :
    (∀ p ∈ [("vm.swappiness", "1"), ("net.core.somaxconn", "128")],
      '=' ∉ p.1.data ∧ '=' ∉ p.2.data ∧ p.1.data.head? ≠ some '#')
    ∧ (([("vm.swappiness", "1"), ("net.core.somaxconn", "128")].map
        (fun p => pyStrip p.1)).Nodup)
    ∧ (mergedContent
          ⟨[("app1", [("vm.swappiness", "1"), ("net.core.somaxconn", "128")].map
              (fun p => p.1 ++ "=" ++ p.2))], none⟩ "app1" true
        = SYSCTL_HEADER ++ [("vm.swappiness", "1"), ("net.core.somaxconn", "128")].map
            (fun p => p.1 ++ "=" ++ p.2)
      ∧ load_data (some (SYSCTL_HEADER ++ [("vm.swappiness", "1"), ("net.core.somaxconn", "128")].map
            (fun p => p.1 ++ "=" ++ p.2)))
        = .ok ([("vm.swappiness", "1"), ("net.core.somaxconn", "128")].map
            (fun p => (pyStrip p.1, pyStrip p.2)))) :=
  ⟨by decide, by decide,
    claim8_roundtrip "app1" none [("vm.swappiness", "1"), ("net.core.somaxconn", "128")]
      (by decide) (by decide)⟩

/-- Claim C9.  The claim states the denial line is detected for any
dotted key, including keys containing digits.  The regex class
`[a-z_\.]` has no digits, so the denial line for
`net.ipv4.tcp_max_syn_backlog` does not match (first conjunct), while a
digit-free key does (second conjunct); consequently an `update` whose
apply output contains exactly that denial line raises no permission
error at all and completes as a success, persisting the files (third
conjunct). -/
theorem claim9_digit_key_denial_undetected :
    matchDenied digitDenyLine = none
    ∧ matchDenied denyLine = some "vm.swappiness"
    ∧ (update digitDenyOracle stFresh [("net.ipv4.tcp_max_syn_backlog", PyVal.int 4096)]).res
        = .ok () := by
  refine ⟨by decide, by decide, by decide⟩

/-- Counterexample for C10.  The claim's general clause says an uncaught
conversion error is raised whenever the query's live value is not a
single decimal-integer line.  Here the query returns the two lines
`5`, `6` — not a single decimal-integer line — yet `int()` is applied
only to the first line, the snapshot becomes `5`, no error is raised and
the update completes successfully. -/
theorem claim10_counterexample :
    (update twoLineOracle stFresh [("vm.swappiness", PyVal.int 1)]).res = .ok ()
    ∧ (createSnapshot twoLineOracle (parse_config [("vm.swappiness", PyVal.int 1)])).1
      = .ok [("vm.swappiness", 5)] := by
  constructor <;> decide

/-- Claim C10 as amended.  If the caller has no own file, validation
passes, and the query output for the first requested key is either empty
or has a first line rejected by Python integer conversion, then `update`
raises an uncaught error (`IndexError`/`ValueError` — none of the three
documented kinds), with no apply invocation (the trace is the single
query) and no file written (the state is unchanged). -/
theorem claim10_snapshot_uncaught_error (o : Oracle) (st : State)
    (cfg : List (String × PyVal)) (k : String) (pv : PyVal) (rest : List (String × PyVal))
    (hown : dlookup st.name st.fs.charmFiles = none)
    (hv : validate st.data (parse_config cfg) = [])
    (hcfg : parse_config cfg = (k, pv) :: rest)
    (hbad : o.queryOut k = .ok [] ∨ ∃ l t, o.queryOut k = .ok (l :: t) ∧ pyInt l = none) :
    ∃ m, update o st cfg = ⟨.error (.uncaught m), st, [[k, "-n"]]⟩ := by
  have hsnap : ∃ m, createSnapshot o (parse_config cfg) = (.error (.uncaught m), [[k, "-n"]]) := by
    rw [hcfg]
    rcases hbad with hq | ⟨l, t, hq, hl⟩
    · exact ⟨"IndexError", by unfold createSnapshot; rw [hq]⟩
    · exact ⟨"ValueError", by unfold createSnapshot; rw [hq]; dsimp only; rw [hl]⟩
  obtain ⟨m, hm⟩ := hsnap
  refine ⟨m, ?_⟩
  unfold update
  rw [preMerge_of_absent st hown]
  dsimp only
  rw [hv]
  dsimp only
  rw [hm]

/-- Witness for the amended C10: the query returns the single line
`hello`, integer conversion rejects it, and `update` stops with the
uncaught error after the one query invocation. -/
theorem claim10_witness :
    dlookup stFresh.name stFresh.fs.charmFiles = none
    ∧ validate stFresh.data (parse_config [("vm.swappiness", PyVal.int 1)]) = []
    ∧ parse_config [("vm.swappiness", PyVal.int 1)] = ("vm.swappiness", PyVal.int 1) :: []
    ∧ (badLineOracle.queryOut "vm.swappiness" = .ok ("hello" :: []) ∧ pyInt "hello" = none)
    ∧ ∃ m, update badLineOracle stFresh [("vm.swappiness", PyVal.int 1)]
        = ⟨.error (.uncaught m), stFresh, [["vm.swappiness", "-n"]]⟩ :=
  ⟨by decide, by decide, by decide, ⟨by decide, by decide⟩,
    claim10_snapshot_uncaught_error badLineOracle stFresh [("vm.swappiness", PyVal.int 1)]
      "vm.swappiness" (PyVal.int 1) [] (by decide) (by decide) (by decide)
      (Or.inr ⟨"hello", [], by decide, by decide⟩)⟩

end Sysctl
